import Mathlib

/-!
# Verification of the `ws2` chat transport module

A shallow embedding, in Lean 4, of the core of `rust/net/src/chat/ws2.rs`:
the message codec (`decode_and_validate`, `TryFrom<TextOrBinary> for
ChatMessage`, `From<ChatMessageProto> for MessageProto`), the outbound
request-ID allocator, the in-flight request table, the `SendFailed` handling
of `ConnectionImpl::handle_inner_response`, the listener dispatch state
machine, and the handle lifecycle (`disconnect` / `send` fast path /
`Responder::send_response`).

Machine integers (`u64`, `i32`, `u32`) are modelled as `Nat`/`Int` with
explicit reductions modulo `2 ^ 64` where Rust wrapping arithmetic occurs.
Protobuf byte-level parsing (the external `prost` crate) is abstracted: a
binary frame is carried together with its protobuf decode result, an
`Option MessageProto` where `none` stands for a `prost::DecodeError`.
Effects (oneshot sends to reply slots) are made explicit as returned lists
of deliveries; Rust panics (`assert!`, `unreachable!`) are modelled as
`none` results of `Option`-valued functions.
-/

namespace Ws2

/-- View of an `Except` value as a `Sum`, used to decide equality. -/
def exceptToSum {ε α : Type} : Except ε α → Sum ε α
  | .error e => .inl e
  | .ok a => .inr a

instance {ε α : Type} [DecidableEq ε] [DecidableEq α] : DecidableEq (Except ε α) :=
  fun a b =>
    decidable_of_iff (exceptToSum a = exceptToSum b)
      (by cases a <;> cases b <;> simp [exceptToSum])

/-! ## Wire data model

`MessageProto`, `RequestProto` and `ResponseProto` mirror the
prost-generated protobuf structs used by the module: every scalar field is
optional, `headers` is a repeated string field, `body` is optional bytes.
Bytes are modelled as `List Nat`. -/

/-- The protobuf `Request` payload: `{id : u64, verb, path, headers, body}`,
all fields optional except the repeated `headers`. -/
structure RequestProto where
  id : Option Nat
  verb : Option String
  path : Option String
  headers : List String
  body : Option (List Nat)
  deriving DecidableEq, Repr

/-- The protobuf `Response` payload: `{id : u64, status : u32, message,
headers, body}`. -/
structure ResponseProto where
  id : Option Nat
  status : Option Nat
  message : Option String
  headers : List String
  body : Option (List Nat)
  deriving DecidableEq, Repr

/-- The envelope proto `{type : optional i32, request?, response?}`. The
`type` field is a raw `i32` on the wire; `none` means the field was absent. -/
structure MessageProto where
  type_ : Option Int
  request : Option RequestProto
  response : Option ResponseProto
  deriving DecidableEq, Repr

/-- The `ChatMessageType` wire enum: `Unknown = 0`, `Request = 1`,
`Response = 2`. -/
inductive ChatMessageType
  | unknown
  | request
  | response
  deriving DecidableEq, Repr

/-- `ChatMessageType::try_from(i32)`: the prost-generated conversion that
succeeds exactly on the declared enum values `0`, `1`, `2`. -/
def ChatMessageType.tryFrom (v : Int) : Option ChatMessageType :=
  if v = 0 then some .unknown
  else if v = 1 then some .request
  else if v = 2 then some .response
  else none

/-- `i32::from(ChatMessageType)`: the wire value of each enum variant. -/
def ChatMessageType.toI32 : ChatMessageType → Int
  | .unknown => 0
  | .request => 1
  | .response => 2

/-- A validated envelope: exactly one of the two payloads, tagged. -/
inductive ChatMessageProto
  | request (r : RequestProto)
  | response (r : ResponseProto)
  deriving DecidableEq, Repr

/-- `From<ChatMessageProto> for MessageProto` (encoding): sets the matching
type tag and exactly the matching payload field. -/
def MessageProto.fromChat : ChatMessageProto → MessageProto
  | .request r => ⟨some ChatMessageType.request.toI32, some r, none⟩
  | .response r => ⟨some ChatMessageType.response.toI32, none, some r⟩

/-- The decode-stage error enum `ChatProtoDataError`. `invalidProtobuf`
abstracts the carried `prost::DecodeError`. -/
inductive ChatProtoDataError
  | invalidProtobuf
  | invalidMessageType (v : Int)
  | requestHasResponse
  | responseHasRequest
  | unknownMessageType
  | missingPayload
  deriving DecidableEq, Repr

/-- `decode_and_validate` on an already-protobuf-decoded payload: the input
`Option MessageProto` is the result of `MessageProto::decode(data)` (`none`
for a prost decode failure). A missing `type` field defaults to `0`
(`r#type.unwrap_or_default()`); an unrecognized value is rejected as
`InvalidMessageType`; then the `(type, request, response)` triple is
validated exactly as the source match does. -/
def decode_and_validate (data : Option MessageProto) :
    Except ChatProtoDataError ChatMessageProto :=
  match data with
  | none => .error .invalidProtobuf
  | some msg =>
    let raw := msg.type_.getD 0
    match ChatMessageType.tryFrom raw with
    | none => .error (.invalidMessageType raw)
    | some messageType =>
      match messageType, msg.request, msg.response with
      | .unknown, _, _ => .error .unknownMessageType
      | .request, some req, none => .ok (.request req)
      | .response, none, some res => .ok (.response res)
      | .request, none, none => .error .missingPayload
      | .response, none, none => .error .missingPayload
      | .request, _, some _ => .error .requestHasResponse
      | .response, some _, _ => .error .responseHasRequest

/-! ## Frames and the full decode chain -/

/-- An incoming frame. A binary frame is carried together with its protobuf
decode result (`none` = the bytes do not decode as `MessageProto`), since
byte-level protobuf parsing lives in the external `prost` crate. -/
inductive TextOrBinary
  | text (s : String)
  | binary (data : Option MessageProto)
  deriving DecidableEq, Repr

/-- The higher-level `Response` produced from a `ResponseProto` by the chat
module outside this file. Only the fields the spec names are kept. -/
structure Response where
  status : Nat
  message : Option String
  headers : List String
  body : Option (List Nat)
  deriving DecidableEq, Repr

/-- Modelled from the spec: the higher-level parsing of a `ResponseProto`
into a `Response` (`TryFrom<ResponseProto> for Response` in the chat module,
whose body is outside the provided sources). The spec types the status as
`u16` (`ResponseProto = {id:u64, status:u16, ...}`), so parsing fails when
the `u32` status field is absent or does not fit in a `u16`. -/
def Response.tryFromProto (r : ResponseProto) : Option Response :=
  match r.status with
  | none => none
  | some s => if s < 2 ^ 16 then some ⟨s, r.message, r.headers, r.body⟩ else none

/-- The decode-stage error enum `ChatProtocolError`. -/
inductive ChatProtocolError
  | receivedTextMessage (len : Nat)
  | invalidResponse (id : Nat)
  | dataError (e : ChatProtoDataError)
  | responseMissingId
  | requestMissingId
  deriving DecidableEq, Repr

/-- A fully decoded incoming message: `ChatMessage::{Request, Response}`. -/
inductive ChatMessage
  | request (id : Nat) (r : RequestProto)
  | response (id : Nat) (r : Response)
  deriving DecidableEq, Repr

/-- `TryFrom<TextOrBinary> for ChatMessage`: rejects text frames with their
byte length, runs `decode_and_validate`, then requires the payload ID and
(for responses) the higher-level response parsing. -/
def ChatMessage.tryFrom (message : TextOrBinary) :
    Except ChatProtocolError ChatMessage :=
  match message with
  | .text s => .error (.receivedTextMessage s.utf8ByteSize)
  | .binary data =>
    match decode_and_validate data with
    | .error e => .error (.dataError e)
    | .ok (.request req) =>
      match req.id with
      | none => .error .requestMissingId
      | some id => .ok (.request id req)
    | .ok (.response res) =>
      match res.id with
      | none => .error .responseMissingId
      | some id =>
        match Response.tryFromProto res with
        | none => .error (.invalidResponse id)
        | some r => .ok (.response id r)

/-! ## Outbound request-ID allocation

`Chat::new_inner` maps the bounded request channel through a closure that
hands out the current counter and then advances it by `wrapping_add(1)`:

    let id = { let next_id = request_id.wrapping_add(1);
               std::mem::replace(&mut request_id, next_id) };
-/

/-- One step of the ID allocator: returns the assigned ID (the current
counter) and the advanced counter, `u64` wrapping modelled as `% 2 ^ 64`. -/
def nextRequestId (request_id : Nat) : Nat × Nat :=
  (request_id, (request_id + 1) % 2 ^ 64)

/-- The IDs assigned to the first `n` requests the driver consumes from the
bounded channel, starting from the counter value `request_id`. -/
def assignedIds (request_id : Nat) : Nat → List Nat
  | 0 => []
  | n + 1 =>
    let (id, next) := nextRequestId request_id
    id :: assignedIds next n

/-! ## In-flight request table

`InFlightRequests` wraps a `HashMap<RequestId, oneshot::Sender<...>>`.
Reply slots (the oneshot senders) are modelled by abstract identifiers
(`Nat`); the table becomes an association list whose keys stay distinct
because `record_send` refuses duplicates. -/

/-- The codec send-error taxonomy `TungsteniteSendError` consumed by the
driver. The `io::Error` kind and the protocol error are abstracted to
`Nat` identifiers. -/
inductive TungsteniteSendError
  | io (kind : Nat)
  | connectionAlreadyClosed
  | messageTooLarge (size max_size : Nat)
  | webSocketProtocol (e : Nat)
  deriving DecidableEq, Repr

/-- The driver-internal error delivered to a reply slot. -/
inductive TaskSendError
  | streamSendFailed (e : TungsteniteSendError)
  | invalidResponse
  deriving DecidableEq, Repr

/-- The in-flight table: request ID to reply-slot identifier. -/
abbrev InFlight := List (Nat × Nat)

/-- Whether the table has an entry for `id`. -/
def InFlight.containsId (t : InFlight) (id : Nat) : Bool :=
  t.any fun e => e.1 == id

/-- `InFlightRequests::record_send`: inserts the slot under `id`; the
source `assert!(prev.is_none(), ...)` aborts (panics) on a duplicate ID,
modelled as `none`. -/
def InFlight.record_send (t : InFlight) (id slot : Nat) : Option InFlight :=
  if t.containsId id then none else some ((id, slot) :: t)

/-- `InFlightRequests::finish_send`: removes the entry for `id` if present
and returns the slot the result is delivered to; a missing entry is only
logged (`none` delivery). -/
def InFlight.finish_send (t : InFlight) (id : Nat) : InFlight × Option Nat :=
  match t.lookup id with
  | none => (t, none)
  | some slot => (t.eraseP fun e => e.1 == id, some slot)

/-! ## Driver event handling

`ConnectionImpl::handle_inner_response` is a pure match on the codec event;
its oneshot-slot sends are modelled as an explicit list of deliveries
`(slot, result)` and its `Outcome` return value is kept as-is. -/

/-- `libsignal_net_infra::ws2::Outcome`. -/
inductive Outcome (c f : Type)
  | Continue (x : c)
  | Finished (y : f)
  deriving DecidableEq, Repr

/-- The codec-level terminal error `NextEventError` (payloads abstracted to
`Nat`/`String` identifiers). -/
inductive NextEventError
  | pingFailed (e : Nat)
  | closeFailed (e : Nat)
  | abnormalServerClose (code : Nat) (reason : String)
  | receiveError (e : Nat)
  | serverIdleTimeout (duration : Nat)
  | unexpectedConnectionClose
  deriving DecidableEq, Repr

/-- `TaskExitError`: why the task finished unexpectedly. -/
inductive TaskExitError
  | websocketError (e : NextEventError)
  | sendIo (kind : Nat)
  | sendTooLarge (size max_size : Nat)
  | sendProtocol (e : Nat)
  deriving DecidableEq, Repr

/-- `OutgoingMeta`: metadata for an outgoing message; the oneshot reply
sender is modelled by its slot identifier. -/
inductive OutgoingMeta
  | sentRequest (id slot : Nat)
  | responseToIncoming
  deriving DecidableEq, Repr

/-- `MessageEvent<OutgoingMeta>` as produced by the inner connection. -/
inductive MessageEvent
  | sentPing
  | receivedPingPong
  | sentMessage (meta : OutgoingMeta)
  | sendFailed (meta : OutgoingMeta) (e : TungsteniteSendError)
  | receivedMessage (msg : TextOrBinary)
  deriving DecidableEq, Repr

/-- `IncomingEvent`: a server-initiated request handed to the outer loop. -/
inductive IncomingEvent
  | receivedRequest (id : Nat) (request : RequestProto)
  deriving DecidableEq, Repr

/-- The result of one `handle_inner_response` step: the updated in-flight
table, the oneshot deliveries it performed, and the loop outcome. -/
structure HandleResult where
  table : InFlight
  deliveries : List (Nat × Except TaskSendError Response)
  outcome : Outcome (Option IncomingEvent) (Except TaskExitError Unit)
  deriving DecidableEq, Repr

/-- `ConnectionImpl::handle_inner_response`. `none` models the panic of the
duplicate-ID assertion in `record_send`. -/
def handle_inner_response (requests_in_flight : InFlight)
    (event : Outcome MessageEvent (Except NextEventError Unit)) :
    Option HandleResult :=
  match event with
  | .Finished (.ok ()) =>
    some ⟨requests_in_flight, [], .Finished (.ok ())⟩
  | .Finished (.error err) =>
    some ⟨requests_in_flight, [], .Finished (.error (.websocketError err))⟩
  | .Continue .sentPing | .Continue .receivedPingPong =>
    some ⟨requests_in_flight, [], .Continue none⟩
  | .Continue (.sentMessage (.sentRequest id slot)) =>
    (requests_in_flight.record_send id slot).map fun t => ⟨t, [], .Continue none⟩
  | .Continue (.sentMessage .responseToIncoming) =>
    some ⟨requests_in_flight, [], .Continue none⟩
  | .Continue (.sendFailed meta send_error) =>
    let task_exit_status : Except TaskExitError Unit :=
      match send_error with
      | .connectionAlreadyClosed => .ok ()
      | .io kind => .error (.sendIo kind)
      | .messageTooLarge size max_size => .error (.sendTooLarge size max_size)
      | .webSocketProtocol p => .error (.sendProtocol p)
    let deliveries : List (Nat × Except TaskSendError Response) :=
      match meta with
      | .sentRequest _ slot => [(slot, .error (.streamSendFailed send_error))]
      | .responseToIncoming => []
    some ⟨requests_in_flight, deliveries, .Finished task_exit_status⟩
  | .Continue (.receivedMessage message) =>
    match ChatMessage.tryFrom message with
    | .error (.dataError _) | .error .requestMissingId
    | .error .responseMissingId | .error (.receivedTextMessage _) =>
      some ⟨requests_in_flight, [], .Continue none⟩
    | .error (.invalidResponse id) =>
      let (t, slot) := requests_in_flight.finish_send id
      let deliveries := match slot with
        | some s => [(s, Except.error TaskSendError.invalidResponse)]
        | none => []
      some ⟨t, deliveries, .Continue none⟩
    | .ok (.response id response) =>
      let (t, slot) := requests_in_flight.finish_send id
      let deliveries := match slot with
        | some s => [(s, Except.ok response)]
        | none => []
      some ⟨t, deliveries, .Continue none⟩
    | .ok (.request id request) =>
      some ⟨requests_in_flight, [], .Continue (some (.receivedRequest id request))⟩

/-! ## Listener dispatch

`ListenerState` guards the user callback. Callbacks are modelled by
abstract identifiers (`Nat`), so an `EventListener` (an
`Option<Box<dyn FnMut ...>>`) is an `Option Nat`. A dispatch is
characterized by the `set_listener` calls the callback performs while it
runs and by whether it panics. -/

/-- `EventListener`: an optional callback, identified abstractly. -/
abbrev EventListener := Option Nat

/-- `ListenerState`: the slot state machine. -/
inductive ListenerState
  | notRunning (l : EventListener)
  | running
  | replacedWhileRunning (l : EventListener)
  deriving DecidableEq, Repr

/-- `Chat::set_listener`: atomically replaces the listener, recording a
replacement when a dispatch is in progress. -/
def set_listener (listener : EventListener) : ListenerState → ListenerState
  | .notRunning _ => .notRunning listener
  | .running => .replacedWhileRunning listener
  | .replacedWhileRunning _ => .replacedWhileRunning listener

/-- The cumulative effect on the slot of the `set_listener` calls the
callback performs during its run, applied in order. -/
def runReplacements (calls : List EventListener) (s : ListenerState) :
    ListenerState :=
  calls.foldl (fun s l => set_listener l s) s

/-- `ListenerState::send_event` as a state transformer on the slot: takes
the callback out (slot := `Running`), runs it — its `set_listener` calls
are `calls`, `panicked` tells whether it panicked (the `Err(_join_error)`
arm) — then reconciles the slot. `none` models the `unreachable!` panics
(slot already `Running`/`ReplacedWhileRunning` on entry, or found
`NotRunning` after the run). -/
def send_event (slot : ListenerState) (calls : List EventListener)
    (panicked : Bool) : Option ListenerState :=
  match slot with
  | .notRunning none => some (.notRunning none)
  | .notRunning (some cb) =>
    let returned_listener : EventListener := if panicked then none else some cb
    match runReplacements calls .running with
    | .running => some (.notRunning returned_listener)
    | .replacedWhileRunning new_listener => some (.notRunning new_listener)
    | .notRunning _ => none
  | .running => none
  | .replacedWhileRunning _ => none

/-! ## Task lifecycle and the `Chat` handle -/

/-- `TaskErrorState`: why the task finished unexpectedly, as stored in the
handle (payloads abstracted). -/
inductive TaskErrorState
  | panicState
  | sendFailed
  | abnormalServerClose (code : Nat) (reason : String)
  | receiveFailed
  | serverIdleTooLong (duration : Nat)
  | unexpectedConnectionClose
  deriving DecidableEq, Repr

/-- `TaskState`: the handle's view of the background task. The channel
senders and join handle carried by the Rust variants are tracked separately
(see `ResponseChannel`). -/
inductive TaskState
  | maybeStillRunning
  | signaledToEnd
  | finished (r : Except TaskErrorState Unit)
  deriving DecidableEq, Repr

/-- `Chat::disconnect` on the task state: hangs up on a running task
(dropping both senders) and records `SignaledToEnd`; an already signaled or
finished state is kept unchanged. It delivers no listener event. -/
def disconnect : TaskState → TaskState
  | .maybeStillRunning => .signaledToEnd
  | .signaledToEnd => .signaledToEnd
  | .finished r => .finished r

/-- `SendError`: errors surfaced to callers of `Chat::send` (payloads
abstracted to `Nat` identifiers). -/
inductive SendError
  | disconnected (reason : String)
  | io (kind : Nat)
  | messageTooLarge (size : Nat)
  | protocolError (e : Nat)
  | invalidResponse
  | invalidRequest
  deriving DecidableEq, Repr

/-- `From<&TaskErrorState> for SendError`: every stored exit state maps to
a `Disconnected` with a diagnostic reason. -/
def SendError.fromTaskErrorState : TaskErrorState → SendError
  | .sendFailed => .disconnected "send failed"
  | .panicState => .disconnected "chat task panicked"
  | .abnormalServerClose _ _ => .disconnected "server closed abnormally"
  | .receiveFailed => .disconnected "receive failed"
  | .serverIdleTooLong _ => .disconnected "server idle too long"
  | .unexpectedConnectionClose => .disconnected "server closed unexpectedly"

/-- The state-observation phase of `send_request`: the match on the task
state performed under the lock before anything is enqueued. `ok ()` stands
for cloning `request_tx` and proceeding to the enqueue. -/
def send_request_observe : TaskState → Except SendError Unit
  | .maybeStillRunning => .ok ()
  | .signaledToEnd => .error (.disconnected "task was already signalled to end")
  | .finished (.ok ()) => .error (.disconnected "task already ended gracefully")
  | .finished (.error err) => .error (SendError.fromTaskErrorState err)

/-! ## Responder

The responder holds a `WeakUnboundedSender` into the outbound response
channel. The only strong sender is the one stored in
`TaskState::MaybeStillRunning` (dropped by `disconnect`); the receiver is
owned by the driver task (dropped when the task exits). -/

/-- The life of the outbound response channel as the responder sees it. -/
structure ResponseChannel where
  /-- Whether the strong `response_tx` held by the handle is still alive. -/
  senderAlive : Bool
  /-- Whether the driver task still holds `response_rx`. -/
  receiverAlive : Bool
  deriving DecidableEq, Repr

/-- Modelled from the spec and the tokio channel contract: a weak sender
upgrade succeeds only while a strong sender is alive, and a send on the
upgraded sender succeeds only while the receiver is alive. -/
def ResponseChannel.upgradeAndSend (ch : ResponseChannel) : Bool :=
  ch.senderAlive && ch.receiverAlive

/-- `Responder::send_response`: upgrade the weak sender and send; any
failure yields the single `Disconnected` reason used by the source. -/
def Responder.send_response (ch : ResponseChannel) : Except SendError Unit :=
  if ch.upgradeAndSend then .ok ()
  else .error (.disconnected "task exited without receiving response")

/-- The effect of `Chat::disconnect` on the response channel: the strong
`response_tx` is dropped. -/
def ResponseChannel.afterDisconnect (ch : ResponseChannel) : ResponseChannel :=
  ⟨false, ch.receiverAlive⟩

/-- The effect of the driver task exiting: its `response_rx` is dropped. -/
def ResponseChannel.afterTaskExit (ch : ResponseChannel) : ResponseChannel :=
  ⟨ch.senderAlive, false⟩

/-! ## Theorems -/

/-- C9: `disconnect()` is idempotent: a second call (from a state already
`SignaledToEnd` or `Finished`) leaves the task state unchanged, does not
panic (the function is total), and — since `disconnect` delivers no
listener events at all — produces no additional listener events, so two
consecutive calls are equivalent to one. -/
theorem C9_disconnect_idempotent (s : TaskState) :
    disconnect (disconnect s) = disconnect s := by
  cases s <;> rfl

/-- C5: after `disconnect()` completes, every subsequent `send` fails with
`Disconnected` before enqueuing anything: `disconnect` records
`SignaledToEnd` (or retains a `Finished` state), and the state-observation
phase of `send_request` rejects every such state with some
`Disconnected{reason}`. -/
theorem C5_send_after_disconnect (s : TaskState) :
    (disconnect s = .signaledToEnd ∨
      ∃ r, s = .finished r ∧ disconnect s = .finished r) ∧
    ∃ reason, send_request_observe (disconnect s) =
      .error (.disconnected reason) := by
  cases s with
  | maybeStillRunning => exact ⟨Or.inl rfl, _, rfl⟩
  | signaledToEnd => exact ⟨Or.inl rfl, _, rfl⟩
  | finished r =>
    refine ⟨Or.inr ⟨r, rfl, rfl⟩, ?_⟩
    match r with
    | .ok () => exact ⟨_, rfl⟩
    | .error e => cases e <;> exact ⟨_, rfl⟩

/-- C6: for every `Responder` that outlives `disconnect()` (the strong
response sender was dropped, so the weak upgrade fails) or the driver
task's exit (the receiver was dropped, so the send fails),
`send_response` returns `Disconnected` with reason
`"task exited without receiving response"`. -/
theorem C6_responder_after_disconnect (ch : ResponseChannel) :
    Responder.send_response ch.afterDisconnect =
      .error (.disconnected "task exited without receiving response") ∧
    Responder.send_response ch.afterTaskExit =
      .error (.disconnected "task exited without receiving response") := by
  obtain ⟨s, r⟩ := ch
  constructor
  · rfl
  · cases s <;> rfl

/-- C3: on `SendFailed(meta, error)` the driver delivers the send error to
the slot when the meta is `SentRequest(id, slot)` (and to nobody
otherwise), leaves the in-flight table untouched, and terminates: with
`Ok(())` when the error is `ConnectionAlreadyClosed`, and otherwise with
the exit error `SendIo`, `SendTooLarge{size, max_size}` or `SendProtocol`
matching the error variant. -/
theorem C3_send_failed_terminates (t : InFlight) (meta : OutgoingMeta)
    (err : TungsteniteSendError) :
    handle_inner_response t (.Continue (.sendFailed meta err)) =
      some ⟨t,
        (match meta with
         | .sentRequest _ slot => [(slot, .error (.streamSendFailed err))]
         | .responseToIncoming => []),
        .Finished
          (match err with
           | .connectionAlreadyClosed => .ok ()
           | .io kind => .error (.sendIo kind)
           | .messageTooLarge size max_size => .error (.sendTooLarge size max_size)
           | .webSocketProtocol p => .error (.sendProtocol p))⟩ := by
  cases meta <;> cases err <;> rfl

/-- C8: for every envelope built from a `Request` or a `Response` carrying
an id, encoding it to a `MessageProto` and then decoding with the
validation rules yields the same tagged structure. -/
theorem C8_encode_decode_roundtrip (cmp : ChatMessageProto)
    (h : (match cmp with
          | .request r => r.id.isSome
          | .response r => r.id.isSome) = true) :
    decode_and_validate (some (MessageProto.fromChat cmp)) = .ok cmp := by
  cases cmp <;> rfl

/-- Witness for C8 at a concrete request envelope. -/
theorem C8_encode_decode_roundtrip_witness :
    decode_and_validate (some (MessageProto.fromChat
        (.request ⟨some 7, some "GET", some "/x", ["h: v"], none⟩))) =
      .ok (.request ⟨some 7, some "GET", some "/x", ["h: v"], none⟩) :=
  C8_encode_decode_roundtrip
    (.request ⟨some 7, some "GET", some "/x", ["h: v"], none⟩) (by decide)

theorem assignedIds_succ (i n : Nat) :
    assignedIds i (n + 1) = i :: assignedIds ((i + 1) % 2 ^ 64) n := rfl

theorem assignedIds_getElem (initial n k : Nat) (h : initial < 2 ^ 64)
    (hk : k < n) :
    (assignedIds initial n)[k]? = some ((initial + k) % 2 ^ 64) := by
  induction n generalizing initial k with
  | zero => omega
  | succ n ih =>
    cases k with
    | zero =>
      rw [assignedIds_succ, List.getElem?_cons_zero, Nat.add_zero,
        Nat.mod_eq_of_lt h]
    | succ k =>
      have h2 : (initial + 1) % 2 ^ 64 < 2 ^ 64 := Nat.mod_lt _ (by norm_num)
      rw [assignedIds_succ, List.getElem?_cons_succ, ih _ _ h2 (by omega),
        Nat.mod_add_mod]
      have : initial + 1 + k = initial + (k + 1) := by omega
      rw [this]

theorem mem_assignedIds (x n initial : Nat) (h : initial < 2 ^ 64) :
    x ∈ assignedIds initial n ↔ ∃ k, k < n ∧ x = (initial + k) % 2 ^ 64 := by
  induction n generalizing initial with
  | zero => simp [assignedIds]
  | succ n ih =>
    rw [assignedIds_succ, List.mem_cons,
      ih ((initial + 1) % 2 ^ 64) (Nat.mod_lt _ (by norm_num))]
    constructor
    · rintro (rfl | ⟨k, hk, rfl⟩)
      · exact ⟨0, by omega, by rw [Nat.add_zero, Nat.mod_eq_of_lt h]⟩
      · refine ⟨k + 1, by omega, ?_⟩
        rw [Nat.mod_add_mod]
        congr 1
        omega
    · rintro ⟨k, hk, rfl⟩
      cases k with
      | zero => exact Or.inl (by rw [Nat.add_zero, Nat.mod_eq_of_lt h])
      | succ k =>
        refine Or.inr ⟨k, by omega, ?_⟩
        rw [Nat.mod_add_mod]
        congr 1
        omega

theorem assignedIds_nodup (initial n : Nat) (h : initial < 2 ^ 64)
    (hn : n ≤ 2 ^ 64) : (assignedIds initial n).Nodup := by
  induction n generalizing initial with
  | zero => simp [assignedIds]
  | succ n ih =>
    rw [assignedIds_succ, List.nodup_cons]
    have h2 : (initial + 1) % 2 ^ 64 < 2 ^ 64 := Nat.mod_lt _ (by norm_num)
    refine ⟨?_, ih _ h2 (by omega)⟩
    rw [mem_assignedIds _ _ _ h2]
    rintro ⟨k, hk, heq⟩
    rw [Nat.mod_add_mod] at heq
    have e : (2 : Nat) ^ 64 = 18446744073709551616 := by norm_num
    rw [e] at heq h hn
    omega

/-- C2: the IDs the driver assigns to outbound requests, in channel
consumption order, form the contiguous sequence `initial_request_id`,
`initial_request_id + 1`, … modulo `2 ^ 64`; in particular with
`initial_request_id = 2 ^ 64 - 1` the first two requests get the IDs
`2 ^ 64 - 1` and `0`. -/
theorem C2_request_ids_contiguous :
    (∀ initial n k, initial < 2 ^ 64 → k < n →
      (assignedIds initial n)[k]? = some ((initial + k) % 2 ^ 64)) ∧
    assignedIds (2 ^ 64 - 1) 2 = [2 ^ 64 - 1, 0] := by
  refine ⟨fun initial n k h hk => assignedIds_getElem initial n k h hk, ?_⟩
  rw [assignedIds_succ, assignedIds_succ]
  norm_num [assignedIds]

/-- Witness for C2 at `initial_request_id = 42`: the third consumed
request is assigned ID `44`. -/
theorem C2_request_ids_contiguous_witness :
    (assignedIds 42 3)[2]? = some ((42 + 2) % 2 ^ 64) :=
  C2_request_ids_contiguous.1 42 3 2 (by norm_num) (by norm_num)

/-- C7: `record_send` aborts the driver (the duplicate-ID assertion fires)
exactly when an entry with the same ID is already in the in-flight table;
and under the driver's sequential ID allocation the first `n ≤ 2 ^ 64`
assigned IDs of a connection are pairwise distinct, so recording them never
fires the assertion. -/
theorem C7_record_send_no_duplicates :
    (∀ (t : InFlight) (id slot : Nat),
      t.record_send id slot = none ↔ t.containsId id = true) ∧
    (∀ initial n, initial < 2 ^ 64 → n ≤ 2 ^ 64 →
      (assignedIds initial n).Nodup) := by
  constructor
  · intro t id slot
    by_cases h : t.containsId id <;> simp [InFlight.record_send, h]
  · exact fun initial n h hn => assignedIds_nodup initial n h hn

/-- Witness for C7: a duplicate insert at ID `3` aborts, and the first four
IDs from `initial_request_id = 5` are distinct. -/
theorem C7_record_send_no_duplicates_witness :
    InFlight.record_send [(3, 0)] 3 9 = none ∧ (assignedIds 5 4).Nodup :=
  ⟨(C7_record_send_no_duplicates.1 [(3, 0)] 3 9).mpr (by decide),
    C7_record_send_no_duplicates.2 5 4 (by norm_num) (by norm_num)⟩

theorem runReplacements_replaced (calls : List EventListener)
    (l : EventListener) :
    runReplacements calls (.replacedWhileRunning l) =
      .replacedWhileRunning (calls.getLast?.getD l) := by
  induction calls generalizing l with
  | nil => rfl
  | cons a rest ih =>
    show runReplacements rest (.replacedWhileRunning a) = _
    rw [ih]
    cases rest with
    | nil => rfl
    | cons b rest2 =>
      rw [List.getLast?_cons_cons,
        List.getLast?_eq_getLast_of_ne_nil (List.cons_ne_nil b rest2)]
      rfl

theorem runReplacements_running (calls : List EventListener) :
    runReplacements calls .running =
      match calls.getLast? with
      | none => .running
      | some l => .replacedWhileRunning l := by
  cases calls with
  | nil => rfl
  | cons a rest =>
    show runReplacements rest (.replacedWhileRunning a) = _
    rw [runReplacements_replaced]
    cases rest with
    | nil => rfl
    | cons b rest2 =>
      rw [List.getLast?_cons_cons,
        List.getLast?_eq_getLast_of_ne_nil (List.cons_ne_nil b rest2)]
      rfl

/-- C4: dispatch from a `NotRunning` slot completes to a `NotRunning`
slot and reconciles replacement and panics: the last listener installed by
`set_listener` during the callback run wins; without a replacement the old
callback is restored on normal return and removed (`NotRunning(None)`) on
panic; with no installed listener nothing runs and the slot is unchanged. -/
theorem C4_listener_dispatch_reconciles (cb : EventListener)
    (calls : List EventListener) (panicked : Bool) :
    send_event (.notRunning cb) calls panicked =
      some (.notRunning
        (match cb with
         | none => none
         | some c =>
           match calls.getLast? with
           | some newListener => newListener
           | none => if panicked then none else some c)) := by
  cases cb with
  | none => rfl
  | some c =>
    have h := runReplacements_running calls
    cases hl : calls.getLast? with
    | none =>
      rw [hl] at h
      simp only [send_event, h]
    | some l =>
      rw [hl] at h
      simp only [send_event, h]

/-- C10: a missing `type` field defaults to `Unknown` and is rejected with
`UnknownMessageType`; a `type` field carrying an unrecognized enum value
`v` is rejected with the distinct error `InvalidMessageType(v)`; and every
uncorrelated decode error (`DataError`) makes the driver continue with the
in-flight table untouched, delivering nothing to any slot and producing no
incoming event. -/
theorem C10_unknown_and_invalid_type (req : Option RequestProto)
    (res : Option ResponseProto) (m : MessageProto) (v : Int)
    (hv : m.type_ = some v) (htf : ChatMessageType.tryFrom v = none)
    (t : InFlight) (msg : TextOrBinary) (e : ChatProtoDataError)
    (hmsg : ChatMessage.tryFrom msg = .error (.dataError e)) :
    decode_and_validate (some ⟨none, req, res⟩) = .error .unknownMessageType ∧
    decode_and_validate (some m) = .error (.invalidMessageType v) ∧
    handle_inner_response t (.Continue (.receivedMessage msg)) =
      some ⟨t, [], .Continue none⟩ := by
  refine ⟨rfl, ?_, ?_⟩
  · obtain ⟨ty, mreq, mres⟩ := m
    cases hv
    simp [decode_and_validate, htf]
  · simp [handle_inner_response, hmsg]

/-- Witness for C10: type absent, type value `7`, and the driver step on
that second frame with one request in flight. -/
theorem C10_unknown_and_invalid_type_witness :
    decode_and_validate (some ⟨none, none, none⟩) =
      .error .unknownMessageType ∧
    decode_and_validate (some ⟨some 7, none, none⟩) =
      .error (.invalidMessageType 7) ∧
    handle_inner_response [(1, 0)]
        (.Continue (.receivedMessage (.binary (some ⟨some 7, none, none⟩)))) =
      some ⟨[(1, 0)], [], .Continue none⟩ :=
  C10_unknown_and_invalid_type none none ⟨some 7, none, none⟩ 7 rfl
    (by decide) [(1, 0)] (.binary (some ⟨some 7, none, none⟩))
    (.invalidMessageType 7) (by decide)

/-- C1 counterexample: the frame whose envelope has `type = 5` (an
unrecognized enum value) and a request payload carrying an id is, by the
claim's rule list, covered by no rejection rule and should decode to the
contained request; the code instead rejects it with
`InvalidMessageType(5)`. -/
theorem C1_counterexample :
    ChatMessage.tryFrom
        (.binary (some ⟨some 5,
          some ⟨some 1, some "GET", some "/", [], none⟩, none⟩)) =
      .error (.dataError (.invalidMessageType 5)) ∧
    ChatMessage.tryFrom
        (.binary (some ⟨some 5,
          some ⟨some 1, some "GET", some "/", [], none⟩, none⟩)) ≠
      .ok (.request 1 ⟨some 1, some "GET", some "/", [], none⟩) := by
  exact ⟨by decide, by decide⟩

/-- C1 (amended): decoding a received frame applies the ordered rules of
the claim, extended with the two rejections the code also performs: a type
field with an unrecognized enum value `v` is rejected with
`InvalidMessageType(v)`, and a `Response` carrying an id whose inner fields
fail higher-level parsing is rejected with `InvalidResponse(id)`; every
other input decodes to the contained `Request` or `Response`. -/
theorem C1_decode_validation_rules :
    (∀ s, ChatMessage.tryFrom (.text s) =
      .error (.receivedTextMessage s.utf8ByteSize)) ∧
    (ChatMessage.tryFrom (.binary none) =
      .error (.dataError .invalidProtobuf)) ∧
    (∀ m, m.type_.getD 0 = 0 →
      ChatMessage.tryFrom (.binary (some m)) =
        .error (.dataError .unknownMessageType)) ∧
    (∀ m v, m.type_ = some v → v ≠ 0 → v ≠ 1 → v ≠ 2 →
      ChatMessage.tryFrom (.binary (some m)) =
        .error (.dataError (.invalidMessageType v))) ∧
    (∀ req res, ChatMessage.tryFrom (.binary (some ⟨some 1, req, some res⟩)) =
      .error (.dataError .requestHasResponse)) ∧
    (∀ req res, ChatMessage.tryFrom (.binary (some ⟨some 2, some req, res⟩)) =
      .error (.dataError .responseHasRequest)) ∧
    (ChatMessage.tryFrom (.binary (some ⟨some 1, none, none⟩)) =
      .error (.dataError .missingPayload)) ∧
    (ChatMessage.tryFrom (.binary (some ⟨some 2, none, none⟩)) =
      .error (.dataError .missingPayload)) ∧
    (∀ req : RequestProto,
      ChatMessage.tryFrom (.binary (some ⟨some 1, some req, none⟩)) =
        match req.id with
        | none => .error .requestMissingId
        | some id => .ok (.request id req)) ∧
    (∀ res : ResponseProto,
      ChatMessage.tryFrom (.binary (some ⟨some 2, none, some res⟩)) =
        match res.id with
        | none => .error .responseMissingId
        | some id =>
          match Response.tryFromProto res with
          | none => .error (.invalidResponse id)
          | some r => .ok (.response id r)) := by
  refine ⟨fun s => rfl, rfl, ?_, ?_, ?_, ?_, rfl, rfl, ?_, ?_⟩
  · intro m h
    obtain ⟨ty, mreq, mres⟩ := m
    simp only [MessageProto.type_] at h
    simp [ChatMessage.tryFrom, decode_and_validate, h, ChatMessageType.tryFrom]
  · intro m v hv h0 h1 h2
    obtain ⟨ty, mreq, mres⟩ := m
    cases hv
    simp [ChatMessage.tryFrom, decode_and_validate, ChatMessageType.tryFrom,
      h0, h1, h2]
  · intro req res
    cases req <;> rfl
  · intro req res
    cases res <;> rfl
  · intro req
    obtain ⟨id, verb, path, headers, body⟩ := req
    cases id <;> rfl
  · intro res
    obtain ⟨id, status, message, headers, body⟩ := res
    cases id <;> rfl

/-- Witness for C1 (amended) at concrete frames for the rules with
hypotheses. -/
theorem C1_decode_validation_rules_witness :
    ChatMessage.tryFrom (.text "hi") = .error (.receivedTextMessage 2) ∧
    ChatMessage.tryFrom (.binary (some ⟨none, none, none⟩)) =
      .error (.dataError .unknownMessageType) ∧
    ChatMessage.tryFrom (.binary (some ⟨some 9, none, none⟩)) =
      .error (.dataError (.invalidMessageType 9)) :=
  ⟨C1_decode_validation_rules.1 "hi",
    C1_decode_validation_rules.2.2.1 ⟨none, none, none⟩ (by decide),
    C1_decode_validation_rules.2.2.2.1 ⟨some 9, none, none⟩ 9 rfl
      (by decide) (by decide) (by decide)⟩

end Ws2
